import Mathlib

/-!
Verification of the Attendance Session & Geo-Verified Check-in Engine
(`functions/index.js`): session creation, check-in classification and
session finalization, shallowly embedded over real-valued JS numbers.
-/

namespace Attendance

/-- A JavaScript number value: either a real value or `NaN`.
(`typeof NaN === "number"` in JS, so `NaN` passes the number checks.) -/
inductive JSNum where
  | num (x : ℝ)
  | nan

open Classical

/-- JS `>` on numbers: `NaN` compares false with everything. -/
def JSNum.gt : JSNum → JSNum → Prop
  | .num a, .num b => b < a
  | _, _ => False

/-- JS `<=` on numbers: `NaN` compares false with everything. -/
def JSNum.le : JSNum → JSNum → Prop
  | .num a, .num b => a ≤ b
  | _, _ => False

/-- JS truthiness of a possibly-absent number: `0`, `NaN` and absence are falsy. -/
def jsTruthyNum : Option JSNum → Prop
  | some (.num x) => x ≠ 0
  | _ => False

/-- `Number.isFinite` on a possibly-absent value (model has no infinities,
so every real payload is finite; `NaN` and non-numbers are not). -/
def jsIsFinite : Option JSNum → Prop
  | some (.num _) => True
  | _ => False

/-- `x || dflt` for a possibly-absent number `x` with a real default:
the value if truthy, the default otherwise. -/
noncomputable def jsOrNum (v : Option JSNum) (dflt : ℝ) : JSNum :=
  if jsTruthyNum v then
    match v with
    | some n => n
    | none => .num dflt
  else .num dflt

/-- `Number.isFinite(v) ? v : 100` as used for the threshold. -/
noncomputable def finiteOr (v : Option JSNum) (dflt : ℝ) : ℝ :=
  if h : jsIsFinite v then
    match v, h with
    | some (.num x), _ => x
  else dflt

/-- `(v * Math.PI) / 180`: degrees to radians (`toRad` in the source). -/
noncomputable def toRad (v : ℝ) : ℝ := v * Real.pi / 180

/-- `EARTH_RADIUS` in the source. -/
def EARTH_RADIUS : ℝ := 6371000

/-- `Math.atan2 y x`: the angle of the point `(x, y)`, in `(-π, π]`. -/
noncomputable def atan2 (y x : ℝ) : ℝ :=
  if 0 < x then Real.arctan (y / x)
  else if x < 0 ∧ 0 ≤ y then Real.arctan (y / x) + Real.pi
  else if x < 0 ∧ y < 0 then Real.arctan (y / x) - Real.pi
  else if x = 0 ∧ 0 < y then Real.pi / 2
  else if x = 0 ∧ y < 0 then -(Real.pi / 2)
  else 0

/-- `haversineDistance(lat1, lon1, lat2, lon2)` from the source:
spherical-Earth great-circle distance in meters. -/
noncomputable def haversineDistance (lat1 lon1 lat2 lon2 : ℝ) : ℝ :=
  let dLat := toRad (lat2 - lat1)
  let dLon := toRad (lon2 - lon1)
  let a := Real.sin (dLat / 2) ^ 2 +
    Real.cos (toRad lat1) * Real.cos (toRad lat2) * Real.sin (dLon / 2) ^ 2
  let c := 2 * atan2 (Real.sqrt a) (Real.sqrt (1 - a))
  EARTH_RADIUS * c

/-- The haversine formula exactly as the specification writes it: every
degree input converted to radians first, then
`a = sin²(Δlat/2) + cos(lat1)·cos(lat2)·sin²(Δlon/2)`,
`c = 2·atan2(√a, √(1−a))`, `distance = 6371000·c`. -/
noncomputable def haversineSpecFormula (lat1 lon1 lat2 lon2 : ℝ) : ℝ :=
  let rlat1 := toRad lat1
  let rlon1 := toRad lon1
  let rlat2 := toRad lat2
  let rlon2 := toRad lon2
  let a := Real.sin ((rlat2 - rlat1) / 2) ^ 2 +
    Real.cos rlat1 * Real.cos rlat2 * Real.sin ((rlon2 - rlon1) / 2) ^ 2
  let c := 2 * atan2 (Real.sqrt a) (Real.sqrt (1 - a))
  6371000 * c

/-! ## Data model -/

/-- A client-supplied `{lat, lng}` object: each field is `some` number
(possibly `NaN`) when `typeof` is `"number"`, `none` otherwise. -/
structure JSLoc where
  lat : Option JSNum
  lng : Option JSNum

/-- One persisted attendance document (`attendance` collection).
`distanceMeters` is `some` exactly when the source sets the field. -/
structure AttendanceRecord where
  studentId : String
  studentName : String
  courseId : String
  sessionId : String
  timestamp : ℝ
  status : String
  verified : Bool
  distanceMeters : Option JSNum

/-- One stored session document (`sessions` collection). Optional fields
model arbitrary stored JS values: `none` is a non-number (or absent) value. -/
structure Session where
  courseId : String
  startTs : JSNum
  expiresAt : Option JSNum
  token : String
  createdAt : ℝ
  location : Option JSLoc
  thresholdMeters : Option JSNum

/-- The store state and clock a check-in call observes. -/
structure CheckinEnv where
  sessions : String → Option Session
  attendance : List AttendanceRecord
  now : ℝ

/-- The request body of `POST /checkin`. -/
structure CheckinReq where
  sessionToken : String
  studentId : String
  studentName : Option String
  location : Option JSLoc

/-- The response of a check-in call, one constructor per JSON outcome. -/
inductive CheckinResult where
  | missingParams
  | invalidSession
  | sessionExpired
  | alreadyCheckedIn
  | locationRequired
  | sessionHasNoLocation
  | outOfRange (distanceMeters : JSNum) (threshold : ℝ)
  | success (verified : Bool) (distanceMeters : JSNum) (record : AttendanceRecord)

/-! ## Check-in pipeline -/

/-- `s || ""` for a possibly-undefined string (`studentName || ""`). -/
def jsOrEmpty : Option String → String
  | some s => s
  | none => ""

/-- `s || ""` for a string already known to be a string (`session.courseId || ""`). -/
def strOrEmpty (s : String) : String := if s = "" then "" else s

/-- `session.expiresAt && Date.now() > session.expiresAt`: the stored expiry
is truthy (a nonzero non-`NaN` number) and the clock has passed it. -/
def expiryPassed (now : ℝ) (expiresAt : Option JSNum) : Prop :=
  match expiresAt with
  | some (.num x) => x ≠ 0 ∧ now > x
  | _ => False

/-- The duplicate query: some attendance document matches
`sessionId == sessionToken` and `studentId == studentId`. -/
def hasAttendanceRecord (att : List AttendanceRecord) (sessionId studentId : String) : Prop :=
  ∃ r ∈ att, r.sessionId = sessionId ∧ r.studentId = studentId

/-- `!loc || typeof loc.lat !== "number" || typeof loc.lng !== "number"`. -/
def locationInvalid : Option JSLoc → Prop
  | none => True
  | some l => l.lat = none ∨ l.lng = none

/-- The `lat` field of a location, `NaN` as a junk value when absent
(only read on branches where the location has been checked). -/
def locLat : Option JSLoc → JSNum
  | some l => l.lat.getD .nan
  | none => .nan

/-- The `lng` field of a location, `NaN` as a junk value when absent. -/
def locLng : Option JSLoc → JSNum
  | some l => l.lng.getD .nan
  | none => .nan

/-- `haversineDistance` lifted to JS numbers: `NaN` anywhere propagates. -/
noncomputable def haversineJS : JSNum → JSNum → JSNum → JSNum → JSNum
  | .num lat1, .num lon1, .num lat2, .num lon2 =>
      .num (haversineDistance lat1 lon1 lat2 lon2)
  | _, _, _, _ => .nan

/-- The rejection/audit record the check-in handler writes: all variants
share these fields, with `distanceMeters` added only on the range branch. -/
def rejectRecord (env : CheckinEnv) (req : CheckinReq) (session : Session)
    (status : String) : AttendanceRecord :=
  { studentId := req.studentId
    studentName := jsOrEmpty req.studentName
    courseId := strOrEmpty session.courseId
    sessionId := req.sessionToken
    timestamp := env.now
    status := status
    verified := false
    distanceMeters := none }

/-- The record the acceptance branch persists and returns. -/
noncomputable def presentRecord (env : CheckinEnv) (req : CheckinReq)
    (session : Session) : AttendanceRecord :=
  { studentId := req.studentId
    studentName := jsOrEmpty req.studentName
    courseId := strOrEmpty session.courseId
    sessionId := req.sessionToken
    timestamp := env.now
    status := "present"
    verified := true
    distanceMeters := some (haversineJS (locLat req.location) (locLng req.location)
      (locLat session.location) (locLng session.location)) }

/-- The check-in pipeline from the expiry check on, once the session
document has been fetched (source lines 94–176). -/
noncomputable def checkInSession (env : CheckinEnv) (req : CheckinReq)
    (session : Session) : CheckinResult × List AttendanceRecord :=
  if expiryPassed env.now session.expiresAt then
    (.sessionExpired, env.attendance)
  else if hasAttendanceRecord env.attendance req.sessionToken req.studentId then
    (.alreadyCheckedIn, env.attendance)
  else if locationInvalid req.location then
    (.locationRequired,
      env.attendance ++ [rejectRecord env req session "rejected_no_location"])
  else if locationInvalid session.location then
    (.sessionHasNoLocation,
      env.attendance ++ [rejectRecord env req session "rejected_no_session_location"])
  else if JSNum.gt
      (haversineJS (locLat req.location) (locLng req.location)
        (locLat session.location) (locLng session.location))
      (.num (finiteOr session.thresholdMeters 100)) then
    (.outOfRange
        (haversineJS (locLat req.location) (locLng req.location)
          (locLat session.location) (locLng session.location))
        (finiteOr session.thresholdMeters 100),
      env.attendance ++
        [{ rejectRecord env req session "rejected_out_of_range" with
            distanceMeters := some (haversineJS (locLat req.location) (locLng req.location)
              (locLat session.location) (locLng session.location)) }])
  else
    (.success true
      (haversineJS (locLat req.location) (locLng req.location)
        (locLat session.location) (locLng session.location))
      (presentRecord env req session),
      env.attendance ++ [presentRecord env req session])

/-- `POST /checkin`: the strict sequential classification pipeline.
Returns the response outcome and the attendance collection after the call. -/
noncomputable def checkIn (env : CheckinEnv) (req : CheckinReq) :
    CheckinResult × List AttendanceRecord :=
  if req.sessionToken = "" ∨ req.studentId = "" then
    (.missingParams, env.attendance)
  else
    match env.sessions req.sessionToken with
    | none => (.invalidSession, env.attendance)
    | some session => checkInSession env req session

/-! ## Session creation -/

/-- The request body of `POST /createSession`: everything but `courseId`
is optional, `none` standing for an absent (or non-number) value. -/
structure CreateSessionReq where
  courseId : String
  startTs : Option JSNum
  expiresAt : Option JSNum
  location : Option JSLoc
  thresholdMeters : Option JSNum

/-- The response of a create-session call. -/
inductive CreateSessionResult where
  | missingCourseId
  | created (sessionId : String) (session : Session)

/-- `POST /createSession`: validates `courseId`, fills the defaults and
persists one new session document under the store-assigned id `newId`. -/
noncomputable def createSession (req : CreateSessionReq) (now : ℝ)
    (newId : String) : CreateSessionResult :=
  if req.courseId = "" then .missingCourseId
  else
    .created newId
      { courseId := req.courseId
        startTs := jsOrNum req.startTs now
        expiresAt := some (jsOrNum req.expiresAt (now + 15 * 60 * 1000))
        token := newId
        createdAt := now
        location := req.location
        thresholdMeters := some (.num (finiteOr req.thresholdMeters 100)) }

/-! ## Finalization -/

/-- One document of the `students` roster collection. -/
structure RosterEntry where
  studentId : String
  name : String
  courseId : String

/-- The response of a finalize-session call, together with the attendance
collection after the call and whether a batch commit was issued. -/
inductive FinalizeResult where
  | missingSessionId
  | ok (absentsAdded : Nat) (attendanceAfter : List AttendanceRecord) (committed : Bool)

/-- The `presentIds` set: studentIds of this session's attendance documents
whose `status` is `"present"`. -/
def presentIds (att : List AttendanceRecord) (sessionId : String) : List String :=
  ((att.filter (fun r => r.sessionId = sessionId)).filter
    (fun r => r.status = "present")).map (fun r => r.studentId)

/-- The absence document batched for one roster student. -/
def absentRecord (s : RosterEntry) (sessionId : String) (now : ℝ) : AttendanceRecord :=
  { studentId := s.studentId
    studentName := strOrEmpty s.name
    courseId := strOrEmpty s.courseId
    sessionId := sessionId
    timestamp := now
    status := "absent"
    verified := false
    distanceMeters := none }

/-- The batch of absence documents: one per roster student with a truthy
id that is not in the present set. -/
def absentBatch (att : List AttendanceRecord) (roster : List RosterEntry)
    (sessionId : String) (now : ℝ) : List AttendanceRecord :=
  (roster.filter
    (fun s => s.studentId ≠ "" ∧ s.studentId ∉ presentIds att sessionId)).map
    (fun s => absentRecord s sessionId now)

/-- `POST /finalizeSession`: batches one `"absent"` record per roster
student with a truthy id not in the present set; commits only when the
batch is non-empty. -/
def finalizeSession (att : List AttendanceRecord) (roster : List RosterEntry)
    (sessionId : String) (now : ℝ) : FinalizeResult :=
  if sessionId = "" then .missingSessionId
  else if (absentBatch att roster sessionId now).length > 0 then
    .ok (absentBatch att roster sessionId now).length
      (att ++ absentBatch att roster sessionId now) true
  else
    .ok (absentBatch att roster sessionId now).length att false

/-! ## A concrete NaN-location scenario -/

/-- A session with a valid geofence center `(1, 2)` and threshold `100`. -/
def nanDemoSession : Session :=
  ⟨"c", .num 0, some (.num 5), "t", 0,
    some ⟨some (.num 1), some (.num 2)⟩, some (.num 100)⟩

/-- A store holding only `nanDemoSession`, empty attendance, clock at `1`. -/
noncomputable def nanDemoEnv : CheckinEnv := ⟨fun _ => some nanDemoSession, [], 1⟩

/-- A check-in request whose location fields are both `NaN`. -/
def nanDemoReq : CheckinReq := ⟨"t", "s1", none, some ⟨some .nan, some .nan⟩⟩

/-! ## Helper lemmas -/

lemma toRad_sub (x y : ℝ) : toRad (x - y) = toRad x - toRad y := by
  unfold toRad; ring

lemma atan2_zero_one : atan2 0 1 = 0 := by
  unfold atan2
  rw [if_pos (by norm_num)]
  simp [Real.arctan_zero]

/-- Helper: the haversine of a point with itself is `0`. -/
lemma haversineDistance_self (lat lon : ℝ) :
    haversineDistance lat lon lat lon = 0 := by
  unfold haversineDistance
  have h0 : toRad (lat - lat) = 0 := by unfold toRad; ring
  have h0' : toRad (lon - lon) = 0 := by unfold toRad; ring
  rw [h0, h0']
  norm_num [Real.sin_zero, Real.sqrt_zero, Real.sqrt_one, atan2_zero_one]

lemma strOrEmpty_eq (s : String) : strOrEmpty s = s := by
  unfold strOrEmpty; split <;> simp_all

/-- Helper: the haversine is symmetric in its two coordinate pairs. -/
lemma haversineDistance_comm (lat1 lon1 lat2 lon2 : ℝ) :
    haversineDistance lat1 lon1 lat2 lon2 = haversineDistance lat2 lon2 lat1 lon1 := by
  unfold haversineDistance
  have hlat : toRad (lat1 - lat2) = -(toRad (lat2 - lat1)) := by unfold toRad; ring
  have hlon : toRad (lon1 - lon2) = -(toRad (lon2 - lon1)) := by unfold toRad; ring
  simp only [hlat, hlon, neg_div, Real.sin_neg, neg_sq]
  ring_nf

/-! ## Claim theorems -/

lemma jsOrNum_untruthy (v : Option JSNum) (d : ℝ) (h : ¬ jsTruthyNum v) :
    jsOrNum v d = .num d := by
  unfold jsOrNum; rw [if_neg h]

lemma finiteOr_num (x d : ℝ) : finiteOr (some (.num x)) d = x := by
  unfold finiteOr; rw [dif_pos (show jsIsFinite (some (.num x)) from trivial)]

lemma finiteOr_not_finite (v : Option JSNum) (d : ℝ) (h : ¬ jsIsFinite v) :
    finiteOr v d = d := by
  unfold finiteOr; rw [dif_neg h]

lemma atan2_one_zero : atan2 1 0 = Real.pi / 2 := by
  unfold atan2
  norm_num

/-- Helper: a quarter-meridian-opposed pair of points on the equator is half
the circumference away: `haversineDistance 0 180 0 0 = 6371000·π`. -/
lemma haversineDistance_antipodal : haversineDistance 0 180 0 0 = 6371000 * Real.pi := by
  unfold haversineDistance
  have h1 : toRad (0 - 0) = 0 := by unfold toRad; ring
  have h2 : toRad (0 - 180) = -Real.pi := by unfold toRad; ring
  have h3 : toRad (0:ℝ) = 0 := by unfold toRad; ring
  rw [h1, h2, h3]
  norm_num [neg_div, Real.sin_neg, Real.sin_pi_div_two, Real.cos_zero,
    Real.sqrt_one, Real.sqrt_zero, atan2_one_zero, EARTH_RADIUS]
  ring

/-- Helper: for a duplicate-free list `l` containing every element of `P`,
the elements of `l` outside `P` number `|l| − |P|` (as finite sets). -/
lemma length_filter_not_mem {α : Type} [DecidableEq α] (l P : List α)
    (hnd : l.Nodup) (hsub : ∀ p ∈ P, p ∈ l) :
    (l.filter (fun s => s ∉ P)).length = l.toFinset.card - P.toFinset.card := by
  have hPsub : P.toFinset ⊆ l.toFinset := by
    intro a ha
    rw [List.mem_toFinset] at ha ⊢
    exact hsub a ha
  have h2 : (l.filter (fun s => s ∉ P)).Nodup := hnd.filter _
  rw [← List.toFinset_card_of_nodup h2, List.toFinset_filter, ← Finset.card_sdiff hPsub]
  congr 1
  ext a
  simp [Finset.mem_sdiff]

lemma checkIn_missing_session (env : CheckinEnv) (req : CheckinReq)
    (htok : req.sessionToken ≠ "") (hsid : req.studentId ≠ "")
    (hs : env.sessions req.sessionToken = none) :
    checkIn env req = (.invalidSession, env.attendance) := by
  unfold checkIn
  rw [if_neg (not_or.mpr ⟨htok, hsid⟩), hs]

lemma checkIn_with_session (env : CheckinEnv) (req : CheckinReq) (s : Session)
    (htok : req.sessionToken ≠ "") (hsid : req.studentId ≠ "")
    (hs : env.sessions req.sessionToken = some s) :
    checkIn env req = checkInSession env req s := by
  unfold checkIn
  rw [if_neg (not_or.mpr ⟨htok, hsid⟩), hs]

/-- C4: the implemented `haversineDistance` agrees with the specification's
reference formula (inputs in degrees converted to radians,
`a = sin²(Δlat/2) + cos(lat1)·cos(lat2)·sin²(Δlon/2)`,
`c = 2·atan2(√a, √(1−a))`, distance `= 6371000·c`) at every input. -/
theorem haversineDistance_eq_spec_formula (lat1 lon1 lat2 lon2 : ℝ) :
    haversineDistance lat1 lon1 lat2 lon2 = haversineSpecFormula lat1 lon1 lat2 lon2 := by
  unfold haversineDistance haversineSpecFormula EARTH_RADIUS
  rw [toRad_sub, toRad_sub]

/-- C7: with both parameters supplied, a missing session yields the
invalid-session error, and a session whose stored expiry is a truthy number
already passed by the clock yields the session-expired error; in both cases
the attendance collection is unchanged. -/
theorem checkin_invalid_or_expired_session (env : CheckinEnv) (req : CheckinReq)
    (htok : req.sessionToken ≠ "") (hsid : req.studentId ≠ "") :
    (env.sessions req.sessionToken = none →
      checkIn env req = (.invalidSession, env.attendance)) ∧
    (∀ s x, env.sessions req.sessionToken = some s → s.expiresAt = some (.num x) →
      x ≠ 0 → env.now > x →
      checkIn env req = (.sessionExpired, env.attendance)) := by
  refine ⟨fun hnone => checkIn_missing_session env req htok hsid hnone, ?_⟩
  intro s x hs he hx0 hnow
  rw [checkIn_with_session env req s htok hsid hs]
  unfold checkInSession
  rw [if_pos (show expiryPassed env.now s.expiresAt by rw [he]; exact ⟨hx0, hnow⟩)]

/-- Witness for C7: a store with no session at all, and a session that
expired at time 5 queried at time 10. -/
theorem checkin_invalid_or_expired_session_witness :
    checkIn ⟨fun _ => none, [], 0⟩ ⟨"t", "s1", none, none⟩ = (.invalidSession, []) ∧
    checkIn ⟨fun _ => some ⟨"c", .num 0, some (.num 5), "t", 0, none, none⟩, [], 10⟩
        ⟨"t", "s1", none, none⟩ = (.sessionExpired, []) := by
  constructor
  · exact (checkin_invalid_or_expired_session _ _ (by decide) (by decide)).1 rfl
  · exact (checkin_invalid_or_expired_session _ _ (by decide) (by decide)).2
      ⟨"c", .num 0, some (.num 5), "t", 0, none, none⟩ 5 rfl rfl
      (by norm_num) (by norm_num)

/-- C3: when a matching (sessionId, studentId) attendance document already
exists, a further check-in for that pair (valid params, existing unexpired
session) returns the already-checked-in outcome and leaves the attendance
collection unchanged. -/
theorem checkin_duplicate_short_circuit (env : CheckinEnv) (req : CheckinReq)
    (htok : req.sessionToken ≠ "") (hsid : req.studentId ≠ "")
    (s : Session) (hs : env.sessions req.sessionToken = some s)
    (hexp : ¬ expiryPassed env.now s.expiresAt)
    (hdup : hasAttendanceRecord env.attendance req.sessionToken req.studentId) :
    checkIn env req = (.alreadyCheckedIn, env.attendance) := by
  rw [checkIn_with_session env req s htok hsid hs]
  unfold checkInSession
  rw [if_neg hexp, if_pos hdup]

/-- Witness for C3: the store already holds a `"present"` record for
`("s1", "t")` from a first check-in; the second call changes nothing. -/
theorem checkin_duplicate_short_circuit_witness :
    checkIn ⟨fun _ => some ⟨"c", .num 0, some (.num 5), "t", 0, none, none⟩,
        [⟨"s1", "", "c", "t", 0, "present", true, some (.num 0)⟩], 1⟩
      ⟨"t", "s1", none, none⟩ =
      (.alreadyCheckedIn, [⟨"s1", "", "c", "t", 0, "present", true, some (.num 0)⟩]) := by
  exact checkin_duplicate_short_circuit _ _ (by decide) (by decide)
    ⟨"c", .num 0, some (.num 5), "t", 0, none, none⟩ rfl
    (by norm_num [expiryPassed])
    ⟨⟨"s1", "", "c", "t", 0, "present", true, some (.num 0)⟩, by simp, rfl, rfl⟩

/-- C5: when the session's geofence center is absent (`null`), every
check-in carrying a well-formed location that passed the earlier steps is
classified session-has-no-location, and the persisted record has status
`"rejected_no_session_location"` and `verified = false`. -/
theorem checkin_missing_geofence (env : CheckinEnv) (req : CheckinReq)
    (htok : req.sessionToken ≠ "") (hsid : req.studentId ≠ "")
    (s : Session) (hs : env.sessions req.sessionToken = some s)
    (hexp : ¬ expiryPassed env.now s.expiresAt)
    (hdup : ¬ hasAttendanceRecord env.attendance req.sessionToken req.studentId)
    (hloc : ¬ locationInvalid req.location)
    (hgeo : s.location = none) :
    checkIn env req = (.sessionHasNoLocation,
        env.attendance ++ [rejectRecord env req s "rejected_no_session_location"]) ∧
    (rejectRecord env req s "rejected_no_session_location").status =
      "rejected_no_session_location" ∧
    (rejectRecord env req s "rejected_no_session_location").verified = false := by
  refine ⟨?_, rfl, rfl⟩
  rw [checkIn_with_session env req s htok hsid hs]
  unfold checkInSession
  rw [if_neg hexp, if_neg hdup, if_neg hloc,
    if_pos (show locationInvalid s.location by rw [hgeo]; trivial)]

/-- Witness for C5: a geofence-less session and a numeric client location. -/
theorem checkin_missing_geofence_witness :
    checkIn ⟨fun _ => some ⟨"c", .num 0, some (.num 5), "t", 0, none, none⟩, [], 1⟩
        ⟨"t", "s1", none, some ⟨some (.num 1), some (.num 2)⟩⟩ =
      (.sessionHasNoLocation,
        [⟨"s1", "", "c", "t", 1, "rejected_no_session_location", false, none⟩]) := by
  have h := (checkin_missing_geofence
    ⟨fun _ => some ⟨"c", .num 0, some (.num 5), "t", 0, none, none⟩, [], 1⟩
    ⟨"t", "s1", none, some ⟨some (.num 1), some (.num 2)⟩⟩
    (by decide) (by decide)
    ⟨"c", .num 0, some (.num 5), "t", 0, none, none⟩ rfl
    (by norm_num [expiryPassed])
    (by simp [hasAttendanceRecord])
    (by simp [locationInvalid])
    rfl).1
  simpa [rejectRecord, jsOrEmpty, strOrEmpty] using h

/-- C1: once a check-in reaches the distance evaluation (valid params,
existing unexpired session, no prior record, numeric client location,
session with a valid geofence and numeric threshold `t`): distance `≤ t`
persists a `"present"`/`verified=true` record with `distanceMeters` set and
returns success, while distance `> t` persists a
`"rejected_out_of_range"`/`verified=false` record with `distanceMeters` set
and returns the out-of-range error carrying distance and threshold; the
boundary `distance = t` falls in the accepted case. -/
theorem checkin_distance_classification (env : CheckinEnv) (req : CheckinReq)
    (htok : req.sessionToken ≠ "") (hsid : req.studentId ≠ "")
    (s : Session) (hs : env.sessions req.sessionToken = some s)
    (hexp : ¬ expiryPassed env.now s.expiresAt)
    (hdup : ¬ hasAttendanceRecord env.attendance req.sessionToken req.studentId)
    (clat clng slat slng t : ℝ)
    (hloc : req.location = some ⟨some (.num clat), some (.num clng)⟩)
    (hgeo : s.location = some ⟨some (.num slat), some (.num slng)⟩)
    (hthr : s.thresholdMeters = some (.num t)) :
    (haversineDistance clat clng slat slng ≤ t →
      checkIn env req =
        (.success true (.num (haversineDistance clat clng slat slng))
            (presentRecord env req s),
          env.attendance ++ [presentRecord env req s]) ∧
      (presentRecord env req s).status = "present" ∧
      (presentRecord env req s).verified = true ∧
      (presentRecord env req s).distanceMeters =
        some (.num (haversineDistance clat clng slat slng))) ∧
    (haversineDistance clat clng slat slng > t →
      checkIn env req =
        (.outOfRange (.num (haversineDistance clat clng slat slng)) t,
          env.attendance ++
            [{ rejectRecord env req s "rejected_out_of_range" with
                distanceMeters := some (.num (haversineDistance clat clng slat slng)) }]) ∧
      ({ rejectRecord env req s "rejected_out_of_range" with
          distanceMeters := some (.num (haversineDistance clat clng slat slng))
            : AttendanceRecord }).status = "rejected_out_of_range" ∧
      ({ rejectRecord env req s "rejected_out_of_range" with
          distanceMeters := some (.num (haversineDistance clat clng slat slng))
            : AttendanceRecord }).verified = false) := by
  have hdist : haversineJS (locLat req.location) (locLng req.location)
      (locLat s.location) (locLng s.location) =
      .num (haversineDistance clat clng slat slng) := by
    rw [hloc, hgeo]; rfl
  have hfin : finiteOr s.thresholdMeters 100 = t := by rw [hthr, finiteOr_num]
  have hlocOK : ¬ locationInvalid req.location := by
    rw [hloc]; simp [locationInvalid]
  have hgeoOK : ¬ locationInvalid s.location := by
    rw [hgeo]; simp [locationInvalid]
  constructor
  · intro hle
    have hngt : ¬ JSNum.gt
        (haversineJS (locLat req.location) (locLng req.location)
          (locLat s.location) (locLng s.location))
        (.num (finiteOr s.thresholdMeters 100)) := by
      rw [hdist, hfin]
      simp only [JSNum.gt]
      exact not_lt.mpr hle
    refine ⟨?_, rfl, rfl, ?_⟩
    · rw [checkIn_with_session env req s htok hsid hs]
      unfold checkInSession
      rw [if_neg hexp, if_neg hdup, if_neg hlocOK, if_neg hgeoOK, if_neg hngt, hdist]
    · unfold presentRecord
      rw [hdist]
  · intro hgt
    have hgt' : JSNum.gt
        (haversineJS (locLat req.location) (locLng req.location)
          (locLat s.location) (locLng s.location))
        (.num (finiteOr s.thresholdMeters 100)) := by
      rw [hdist, hfin]
      simpa only [JSNum.gt] using hgt
    refine ⟨?_, rfl, rfl⟩
    rw [checkIn_with_session env req s htok hsid hs]
    unfold checkInSession
    rw [if_neg hexp, if_neg hdup, if_neg hlocOK, if_neg hgeoOK, if_pos hgt', hdist, hfin]

/-- Witness for C1: client at the session's own geofence center (distance
`0 ≤ 100`) is accepted; a client on the equator 180° of longitude away
(distance `6371000·π > 100`) is rejected out of range. -/
theorem checkin_distance_classification_witness :
    checkIn ⟨fun _ => some ⟨"c", .num 0, some (.num 5), "t", 0,
          some ⟨some (.num 1), some (.num 2)⟩, some (.num 100)⟩, [], 1⟩
        ⟨"t", "s1", none, some ⟨some (.num 1), some (.num 2)⟩⟩ =
      (.success true (.num (haversineDistance 1 2 1 2))
          (presentRecord ⟨fun _ => some ⟨"c", .num 0, some (.num 5), "t", 0,
              some ⟨some (.num 1), some (.num 2)⟩, some (.num 100)⟩, [], 1⟩
            ⟨"t", "s1", none, some ⟨some (.num 1), some (.num 2)⟩⟩
            ⟨"c", .num 0, some (.num 5), "t", 0,
              some ⟨some (.num 1), some (.num 2)⟩, some (.num 100)⟩),
        [presentRecord ⟨fun _ => some ⟨"c", .num 0, some (.num 5), "t", 0,
              some ⟨some (.num 1), some (.num 2)⟩, some (.num 100)⟩, [], 1⟩
            ⟨"t", "s1", none, some ⟨some (.num 1), some (.num 2)⟩⟩
            ⟨"c", .num 0, some (.num 5), "t", 0,
              some ⟨some (.num 1), some (.num 2)⟩, some (.num 100)⟩]) ∧
    checkIn ⟨fun _ => some ⟨"c", .num 0, some (.num 5), "t", 0,
          some ⟨some (.num 0), some (.num 0)⟩, some (.num 100)⟩, [], 1⟩
        ⟨"t", "s1", none, some ⟨some (.num 0), some (.num 180)⟩⟩ =
      (.outOfRange (.num (haversineDistance 0 180 0 0)) 100,
        [{ rejectRecord ⟨fun _ => some ⟨"c", .num 0, some (.num 5), "t", 0,
              some ⟨some (.num 0), some (.num 0)⟩, some (.num 100)⟩, [], 1⟩
            ⟨"t", "s1", none, some ⟨some (.num 0), some (.num 180)⟩⟩
            ⟨"c", .num 0, some (.num 5), "t", 0,
              some ⟨some (.num 0), some (.num 0)⟩, some (.num 100)⟩
            "rejected_out_of_range" with
            distanceMeters := some (.num (haversineDistance 0 180 0 0)) }]) := by
  constructor
  · exact ((checkin_distance_classification _ _ (by decide) (by decide)
      ⟨"c", .num 0, some (.num 5), "t", 0,
        some ⟨some (.num 1), some (.num 2)⟩, some (.num 100)⟩ rfl
      (by norm_num [expiryPassed]) (by simp [hasAttendanceRecord])
      1 2 1 2 100 rfl rfl rfl).1
      (by rw [haversineDistance_self]; norm_num)).1
  · exact ((checkin_distance_classification _ _ (by decide) (by decide)
      ⟨"c", .num 0, some (.num 5), "t", 0,
        some ⟨some (.num 0), some (.num 0)⟩, some (.num 100)⟩ rfl
      (by norm_num [expiryPassed]) (by simp [hasAttendanceRecord])
      0 180 0 0 100 rfl rfl rfl).2
      (by rw [haversineDistance_antipodal]; nlinarith [Real.pi_gt_three])).1

/-- C6: every check-in call writes zero or one attendance document: zero
exactly on the early failures (missing params, missing session, expired
session) and the duplicate short-circuit, and on every other path exactly
one record is appended, whose status is the defined outcome status paired
with the returned result. -/
theorem checkin_write_discipline (env : CheckinEnv) (req : CheckinReq) :
    ((checkIn env req).2 = env.attendance ∧
      ((checkIn env req).1 = .missingParams ∨ (checkIn env req).1 = .invalidSession ∨
       (checkIn env req).1 = .sessionExpired ∨ (checkIn env req).1 = .alreadyCheckedIn)) ∨
    (∃ r, (checkIn env req).2 = env.attendance ++ [r] ∧
      (((checkIn env req).1 = .locationRequired ∧ r.status = "rejected_no_location" ∧
          r.verified = false) ∨
       ((checkIn env req).1 = .sessionHasNoLocation ∧
          r.status = "rejected_no_session_location" ∧ r.verified = false) ∨
       (∃ d t, (checkIn env req).1 = .outOfRange d t ∧
          r.status = "rejected_out_of_range" ∧ r.verified = false ∧
          r.distanceMeters = some d) ∨
       (∃ d, (checkIn env req).1 = .success true d r ∧ r.status = "present" ∧
          r.verified = true ∧ r.distanceMeters = some d))) := by
  unfold checkIn checkInSession
  split
  · exact Or.inl ⟨rfl, Or.inl rfl⟩
  · split
    · exact Or.inl ⟨rfl, Or.inr (Or.inl rfl)⟩
    · split
      · exact Or.inl ⟨rfl, Or.inr (Or.inr (Or.inl rfl))⟩
      · split
        · exact Or.inl ⟨rfl, Or.inr (Or.inr (Or.inr rfl))⟩
        · split
          · exact Or.inr ⟨_, rfl, Or.inl ⟨rfl, rfl, rfl⟩⟩
          · split
            · exact Or.inr ⟨_, rfl, Or.inr (Or.inl ⟨rfl, rfl, rfl⟩)⟩
            · split
              · exact Or.inr ⟨_, rfl, Or.inr (Or.inr (Or.inl ⟨_, _, rfl, rfl, rfl, rfl⟩))⟩
              · exact Or.inr ⟨_, rfl, Or.inr (Or.inr (Or.inr ⟨_, rfl, rfl, rfl, rfl⟩))⟩

/-- C10: the client-location well-formedness check admits `NaN`: for a
session with a valid geofence there is a request whose lat/lng are `NaN`
(which pass the typeof-number presence check), the computed distance is
`NaN`, the comparison `distance > threshold` is false, and the call persists
a `"present"`/`verified=true` record with `distanceMeters = NaN` — the
geofence rejection branch is not taken. -/
theorem checkin_nan_location_accepted :
    ¬ locationInvalid nanDemoReq.location ∧
    ¬ locationInvalid nanDemoSession.location ∧
    haversineJS (locLat nanDemoReq.location) (locLng nanDemoReq.location)
      (locLat nanDemoSession.location) (locLng nanDemoSession.location) = .nan ∧
    ¬ JSNum.gt .nan (.num (finiteOr nanDemoSession.thresholdMeters 100)) ∧
    checkIn nanDemoEnv nanDemoReq =
      (.success true .nan (presentRecord nanDemoEnv nanDemoReq nanDemoSession),
        [presentRecord nanDemoEnv nanDemoReq nanDemoSession]) ∧
    (presentRecord nanDemoEnv nanDemoReq nanDemoSession).status = "present" ∧
    (presentRecord nanDemoEnv nanDemoReq nanDemoSession).verified = true ∧
    (presentRecord nanDemoEnv nanDemoReq nanDemoSession).distanceMeters = some .nan := by
  refine ⟨?_, ?_, rfl, fun h => h, ?_, rfl, rfl, rfl⟩
  · simp [nanDemoReq, locationInvalid]
  · simp [nanDemoSession, locationInvalid]
  · rw [checkIn_with_session nanDemoEnv nanDemoReq nanDemoSession
      (by decide) (by decide) rfl]
    unfold checkInSession
    rw [if_neg (show ¬ expiryPassed nanDemoEnv.now nanDemoSession.expiresAt by
        norm_num [nanDemoEnv, nanDemoSession, expiryPassed]),
      if_neg (show ¬ hasAttendanceRecord nanDemoEnv.attendance nanDemoReq.sessionToken
          nanDemoReq.studentId by simp [nanDemoEnv, hasAttendanceRecord]),
      if_neg (show ¬ locationInvalid nanDemoReq.location by
        simp [nanDemoReq, locationInvalid]),
      if_neg (show ¬ locationInvalid nanDemoSession.location by
        simp [nanDemoSession, locationInvalid]),
      if_neg (show ¬ JSNum.gt
        (haversineJS (locLat nanDemoReq.location) (locLng nanDemoReq.location)
          (locLat nanDemoSession.location) (locLng nanDemoSession.location))
        (.num (finiteOr nanDemoSession.thresholdMeters 100)) from fun h => h)]
    rfl

/-- C8: a createSession call supplying only a non-empty `courseId` persists
a session with `startTs` the current time, `expiresAt` the creation time
plus 900000 ms, `thresholdMeters` 100 and a null geofence; and whenever the
supplied threshold is not a finite number the persisted threshold is 100. -/
theorem createsession_defaults (courseId : String) (now : ℝ) (newId : String)
    (hc : courseId ≠ "") :
    (∀ v, ¬ jsIsFinite v →
      createSession ⟨courseId, none, none, none, v⟩ now newId =
        .created newId
          { courseId := courseId
            startTs := .num now
            expiresAt := some (.num (now + 900000))
            token := newId
            createdAt := now
            location := none
            thresholdMeters := some (.num 100) }) ∧
    (∀ req : CreateSessionReq, req.courseId ≠ "" → ¬ jsIsFinite req.thresholdMeters →
      ∀ sid s, createSession req now newId = .created sid s →
        s.thresholdMeters = some (.num 100)) := by
  constructor
  · intro v hv
    unfold createSession
    rw [if_neg hc]
    have h1 : jsOrNum none now = .num now := jsOrNum_untruthy none now (fun h => h)
    have h2 : jsOrNum none (now + 15 * 60 * 1000) = .num (now + 900000) := by
      rw [jsOrNum_untruthy none _ (fun h => h)]; norm_num
    have h3 : finiteOr v 100 = (100:ℝ) := finiteOr_not_finite v 100 hv
    simp only [h1, h2, h3]
  · intro req hreq hfin sid s heq
    unfold createSession at heq
    rw [if_neg hreq] at heq
    cases heq
    rw [finiteOr_not_finite req.thresholdMeters 100 hfin]

/-- Witness for C8: `courseId = "CS101"`, creation time `0`: once with the
threshold omitted and once with a `NaN` (non-finite) threshold. -/
theorem createsession_defaults_witness :
    createSession ⟨"CS101", none, none, none, none⟩ 0 "id" =
      .created "id" ⟨"CS101", .num 0, some (.num (0 + 900000)), "id", 0,
        none, some (.num 100)⟩ ∧
    createSession ⟨"CS101", none, none, none, some .nan⟩ 0 "id" =
      .created "id" ⟨"CS101", .num 0, some (.num (0 + 900000)), "id", 0,
        none, some (.num 100)⟩ ∧
    (⟨"CS101", .num 0, some (.num (0 + 900000)), "id", 0, none,
        some (.num 100)⟩ : Session).thresholdMeters = some (.num 100) := by
  have heval := (createsession_defaults "CS101" 0 "id" (by decide)).1
    (some .nan) (fun h => h)
  exact ⟨(createsession_defaults "CS101" 0 "id" (by decide)).1 none (fun h => h),
    heval,
    (createsession_defaults "CS101" 0 "id" (by decide)).2
      ⟨"CS101", none, none, none, some .nan⟩ (by decide) (fun h => h) "id" _ heval⟩

/-- C2: finalizeSession, run once on a session with no prior finalization
(roster ids truthy and duplicate-free, present set `P` ⊆ roster set `R`),
reports `absentsAdded = |R| − |P|`, appends exactly one `"absent"` record
per roster student not in `P` (fields taken from the roster entry), and
issues no batch commit when zero absences are computed. -/
theorem finalize_set_complement (att : List AttendanceRecord) (roster : List RosterEntry)
    (sessionId : String) (now : ℝ)
    (hsid : sessionId ≠ "")
    (hids : ∀ e ∈ roster, e.studentId ≠ "")
    (hnd : (roster.map RosterEntry.studentId).Nodup)
    (hsub : ∀ p ∈ presentIds att sessionId, p ∈ roster.map RosterEntry.studentId) :
    finalizeSession att roster sessionId now =
      .ok ((roster.map RosterEntry.studentId).toFinset.card -
            (presentIds att sessionId).toFinset.card)
        (att ++ (roster.filter (fun e => e.studentId ∉ presentIds att sessionId)).map
            (fun e => absentRecord e sessionId now))
        (decide (0 < (roster.map RosterEntry.studentId).toFinset.card -
            (presentIds att sessionId).toFinset.card)) ∧
    ((roster.map RosterEntry.studentId).toFinset.card =
        (presentIds att sessionId).toFinset.card →
      finalizeSession att roster sessionId now = .ok 0 att false) := by
  have hfeq : absentBatch att roster sessionId now =
      (roster.filter (fun e => e.studentId ∉ presentIds att sessionId)).map
        (fun e => absentRecord e sessionId now) := by
    unfold absentBatch
    exact congrArg _ (List.filter_congr (fun e he => by simp [hids e he]))
  have hq : (roster.filter (fun e => e.studentId ∉ presentIds att sessionId)).length =
      ((roster.map RosterEntry.studentId).filter
        (fun s => s ∉ presentIds att sessionId)).length := by
    rw [List.filter_map, List.length_map]
    rfl
  have hlen : ((roster.filter (fun e => e.studentId ∉ presentIds att sessionId)).map
      (fun e => absentRecord e sessionId now)).length =
      (roster.map RosterEntry.studentId).toFinset.card -
        (presentIds att sessionId).toFinset.card := by
    rw [List.length_map, hq]
    exact length_filter_not_mem _ _ hnd hsub
  have hmain : finalizeSession att roster sessionId now =
      .ok ((roster.map RosterEntry.studentId).toFinset.card -
            (presentIds att sessionId).toFinset.card)
        (att ++ (roster.filter (fun e => e.studentId ∉ presentIds att sessionId)).map
            (fun e => absentRecord e sessionId now))
        (decide (0 < (roster.map RosterEntry.studentId).toFinset.card -
            (presentIds att sessionId).toFinset.card)) := by
    unfold finalizeSession
    rw [if_neg hsid, hfeq, hlen]
    split
    case isTrue h => rw [decide_eq_true h]
    case isFalse h =>
      have h0 : (roster.map RosterEntry.studentId).toFinset.card -
          (presentIds att sessionId).toFinset.card = 0 := Nat.eq_zero_of_not_pos h
      have hnil : (roster.filter (fun e => e.studentId ∉ presentIds att sessionId)).map
          (fun e => absentRecord e sessionId now) = [] :=
        List.eq_nil_of_length_eq_zero (by rw [hlen, h0])
      rw [hnil]
      simp [h0]
  refine ⟨hmain, fun hcards => ?_⟩
  have h0 : (roster.map RosterEntry.studentId).toFinset.card -
      (presentIds att sessionId).toFinset.card = 0 := by omega
  have hnil : (roster.filter (fun e => e.studentId ∉ presentIds att sessionId)).map
      (fun e => absentRecord e sessionId now) = [] :=
    List.eq_nil_of_length_eq_zero (by rw [hlen, h0])
  rw [hmain, h0, hnil]
  simp

/-- Witness for C2: roster `[s1, s2, s3]`, present set `{s1}` for session
`"t"` → `absentsAdded = 2`, with `"absent"` records appended for `s2` and
`s3`, and the batch committed. -/
theorem finalize_set_complement_witness :
    finalizeSession [⟨"s1", "", "c", "t", 0, "present", true, some (.num 0)⟩]
        [⟨"s1", "n1", "c"⟩, ⟨"s2", "n2", "c"⟩, ⟨"s3", "n3", "c"⟩] "t" 5 =
      .ok 2
        ([⟨"s1", "", "c", "t", 0, "present", true, some (.num 0)⟩] ++
          [⟨"s2", "n2", "c", "t", 5, "absent", false, none⟩,
           ⟨"s3", "n3", "c", "t", 5, "absent", false, none⟩])
        true := by
  have h := (finalize_set_complement
    [⟨"s1", "", "c", "t", 0, "present", true, some (.num 0)⟩]
    [⟨"s1", "n1", "c"⟩, ⟨"s2", "n2", "c"⟩, ⟨"s3", "n3", "c"⟩] "t" 5
    (by decide) (by decide) (by decide) (by decide)).1
  refine h.trans ?_
  norm_num [presentIds, absentRecord, strOrEmpty]
  refine ⟨by decide, ?_, by decide⟩
  simp [List.filter]

/-- C9: the haversine distance of a coordinate pair with itself is `0`,
and the distance is symmetric in its two coordinate pairs. -/
theorem haversineDistance_self_zero_and_symm :
    (∀ lat lon : ℝ, haversineDistance lat lon lat lon = 0) ∧
    (∀ lat1 lon1 lat2 lon2 : ℝ,
      haversineDistance lat1 lon1 lat2 lon2 = haversineDistance lat2 lon2 lat1 lon1) :=
  ⟨haversineDistance_self, haversineDistance_comm⟩

end Attendance
